import Mathlib

/-!
Verification of the v8worker lifecycle and message-bridge layer
(src/binding.cc and src/worker.go).

The V8 engine itself is an opaque collaborator; it is abstracted by the
values the bridge observes from it: a script handler call either returns a
JavaScript value or throws a fault, and a compile-and-run request either
fails to compile or yields a unit whose single execution succeeds or
throws.  Everything the bridge layer does with those observations is
translated directly from the source.
-/

namespace V8Worker

/-- A JavaScript value as observed by the bridge.  The bridge only ever
tests `IsString` on a handler result (binding.cc line 319), so values are
either a string or some non-string value. -/
inductive JSValue where
  | str (s : String)
  | nonString
  deriving DecidableEq, Repr

/-- Source-position metadata carried by a caught fault, as read by
`ExceptionString` from the `v8::Message` object (binding.cc lines 55-82):
resource name, line number, offending source line, start and end column. -/
structure V8Message where
  resourceName : String
  lineNumber : Int
  sourceLine : String
  startColumn : Int
  endColumn : Int
  deriving DecidableEq, Repr

/-- A caught engine fault as observed through `v8::TryCatch`: the exception
text, optional position metadata (`try_catch->Message()` may be empty), and
the stack-trace text (`Utf8Value` of length 0 when no stack trace exists,
binding.cc lines 84-92). -/
structure V8Fault where
  exceptionText : String
  message : Option V8Message
  stackTrace : String
  deriving DecidableEq, Repr

/-- The character-append for-loops of `ExceptionString` (binding.cc lines
76-78 and 80-82): append character `c` to `out` a given number of times. -/
def appendLoop (out : String) (c : Char) : Nat → String
  | 0 => out
  | n + 1 => appendLoop (out.push c) c n

/-- Translation of `ExceptionString` (binding.cc lines 39-95).  When the
message is empty only the exception text is printed; otherwise the output
is resource name and line, the source line, a caret marker line (the two
C for-loops run `max start 0` and `max (end - start) 0` times, hence the
`Int.toNat` coercions), then the stack trace when non-empty, else the
exception text. -/
def ExceptionString (f : V8Fault) : String :=
  match f.message with
  | none => f.exceptionText ++ "\n"
  | some m =>
    let out := "" ++ m.resourceName ++ ":" ++ toString m.lineNumber ++ "\n"
    let out := out ++ m.sourceLine ++ "\n"
    let out := appendLoop out ' ' m.startColumn.toNat
    let out := appendLoop out '^' (m.endColumn - m.startColumn).toNat
    let out := out ++ "\n"
    if 0 < f.stackTrace.length then out ++ f.stackTrace ++ "\n"
    else out ++ f.exceptionText ++ "\n"

/-- The fields of the C `worker_s` struct (binding.cc lines 23-31) that the
bridge reads and writes.  The async inbound handler `recv` is modelled by
what the bridge observes of a call: it returns normally or throws a fault.
The sync inbound handler `recv_sync_handler` returns a JavaScript value.
An empty `Persistent<Function>` slot is `none`; a fresh `std::string` is
empty. -/
structure Worker where
  id : Nat
  last_exception : String
  recv : Option (String → Option V8Fault)
  recv_sync_handler : Option (String → JSValue)

/-- Translation of `worker_new` (binding.cc lines 336-373): a fresh worker
has the given identity, an empty last-exception string, and both handler
slots empty (no `Persistent<Function>` has been reset onto them). -/
def worker_new (worker_id : Nat) : Worker :=
  { id := worker_id
    last_exception := ""
    recv := none
    recv_sync_handler := none }

/-- Translation of `Recv` (binding.cc lines 179-194): store the function
argument into the `recv` slot, replacing any previous value
(`w->recv.Reset(isolate, func)`). -/
def Recv (w : Worker) (func : String → Option V8Fault) : Worker :=
  { w with recv := some func }

/-- Translation of `RecvSync` (binding.cc lines 196-211): store the
function argument into the `recv_sync_handler` slot, replacing any
previous value. -/
def RecvSync (w : Worker) (func : String → JSValue) : Worker :=
  { w with recv_sync_handler := some func }

/-- Translation of `worker_send` (binding.cc lines 269-298): if the `recv`
slot is empty, set `last_exception` to `"$recv not called"` and return 1;
otherwise call the handler, and if it threw, record the translated
exception and return 2, else return 0. -/
def worker_send (w : Worker) (msg : String) : Worker × Int :=
  match w.recv with
  | none => ({ w with last_exception := "$recv not called" }, 1)
  | some recv =>
    match recv msg with
    | some fault => ({ w with last_exception := ExceptionString fault }, 2)
    | none => (w, 0)

/-- A `const char*` value as returned by `worker_send_sync` to its Go
caller.  The two sentinel branches return pointers to static string
literals, whose storage lives for the whole process.  The string branch
(binding.cc lines 319-323) instead returns `out.c_str()` where `out` is a
function-local `std::string` destroyed when the function returns: the
pointer dangles, and what the caller later reads through it is not
defined.  The payload of `danglingLocal` records only the bytes the
buffer held before destruction, not a value the caller can rely on. -/
inductive CStr where
  | lit (s : String)
  | danglingLocal (s : String)
  deriving DecidableEq, Repr

/-- Translation of `worker_send_sync` (binding.cc lines 302-327): if the
`recv_sync_handler` slot is empty, return the static sentinel literal;
otherwise call the handler; a string result is copied into a
function-local `std::string` whose `c_str()` is returned — a pointer that
dangles as soon as the function returns; a non-string result returns the
static non-string sentinel literal.  No `last_exception` is written on
this path. -/
def worker_send_sync (w : Worker) (msg : String) : CStr :=
  match w.recv_sync_handler with
  | none => CStr.lit "err: $recvSync not called"
  | some handler =>
    match handler msg with
    | .str s => CStr.danglingLocal s
    | .nonString => CStr.lit "err: non-string return value"

/-- Translation of `Worker.Send` (worker.go lines 191-202): call
`worker_send`; on a non-zero return code produce an error whose text is
the worker last exception, otherwise succeed. -/
def Worker.Send (w : Worker) (msg : String) : Worker × Except String Unit :=
  let r := worker_send w msg
  if r.2 ≠ 0 then (r.1, .error r.1.last_exception) else (r.1, .ok ())

/-- Translation of `Worker.SendSync` (worker.go lines 206-212):
`C.GoString(svalue)` copies the bytes behind the pointer returned by
`worker_send_sync`.  That read is well-defined only when the pointer is
to storage still alive — the static literals; a read through the dangling
pointer of a destroyed local is undefined behavior, modelled as `none`. -/
def Worker.SendSync (w : Worker) (msg : String) : Option String :=
  match worker_send_sync w msg with
  | CStr.lit s => some s
  | CStr.danglingLocal _ => none

/-- Claim C1 (code slip): on the very path the round-trip claim needs — a
registered sync handler whose result is a string — `worker_send_sync`
returns `out.c_str()` of a function-local `std::string` destroyed before
the Go caller copies it (binding.cc lines 319-323), so the reply reaching
`SendSync` is read through a dangling pointer and no byte-for-byte return
of the handler result is guaranteed by the program.  In particular the
identity handler does not guarantee that `SendSync msg` yields `msg`. -/
theorem sendSync_reply_dangling (w : Worker) (func : String → JSValue)
    (msg s : String) (h : w.recv_sync_handler = some func)
    (hres : func msg = JSValue.str s) :
    worker_send_sync w msg = CStr.danglingLocal s ∧
    Worker.SendSync w msg = none := by
  constructor
  · simp [worker_send_sync, h, hres]
  · simp [Worker.SendSync, worker_send_sync, h, hres]

/-- Claim C1 witness: the failing input evaluated — the identity sync
handler and the message "hello" reach the dangling-return branch, so the
Go-side read of the reply is undefined. -/
theorem sendSync_reply_dangling_witness :
    worker_send_sync
        { worker_new 0 with recv_sync_handler := some (fun s => JSValue.str s) }
        "hello" = CStr.danglingLocal "hello" ∧
    Worker.SendSync
        { worker_new 0 with recv_sync_handler := some (fun s => JSValue.str s) }
        "hello" = none :=
  sendSync_reply_dangling _ (fun s => JSValue.str s) "hello" "hello" rfl rfl

/-- Claim C4: with no sync inbound handler registered, `worker_send_sync`
returns a pointer to the static sentinel literal — storage that stays
alive — so the caller receives the sentinel error text as an ordinary,
well-defined string value; by its type this path signals no exception or
error (contrast `Worker.Send`, whose result is an `Except`). -/
theorem sendSync_no_handler_sentinel (w : Worker) (msg : String)
    (h : w.recv_sync_handler = none) :
    worker_send_sync w msg = CStr.lit "err: $recvSync not called" ∧
    Worker.SendSync w msg = some "err: $recvSync not called" := by
  constructor
  · simp [worker_send_sync, h]
  · simp [Worker.SendSync, worker_send_sync, h]

/-- Claim C4 witness: on a fresh worker, which has no sync handler. -/
theorem sendSync_no_handler_sentinel_witness :
    worker_send_sync (worker_new 7) "ping"
      = CStr.lit "err: $recvSync not called" ∧
    Worker.SendSync (worker_new 7) "ping"
      = some "err: $recvSync not called" :=
  sendSync_no_handler_sentinel (worker_new 7) "ping" rfl

/-- Claim C5: if the registered sync inbound handler returns a non-string
value, `worker_send_sync` returns a pointer to the static non-string
sentinel literal, so the caller receives the documented sentinel error
text as a well-defined string; by its type this path raises no fault. -/
theorem sendSync_non_string_sentinel (w : Worker) (func : String → JSValue)
    (msg : String) (h : w.recv_sync_handler = some func)
    (hres : func msg = JSValue.nonString) :
    worker_send_sync w msg = CStr.lit "err: non-string return value" ∧
    Worker.SendSync w msg = some "err: non-string return value" := by
  constructor
  · simp [worker_send_sync, h, hres]
  · simp [Worker.SendSync, worker_send_sync, h, hres]

/-- Claim C5 witness: a handler returning a non-string value at a concrete
message. -/
theorem sendSync_non_string_sentinel_witness :
    worker_send_sync
        { worker_new 0 with recv_sync_handler := some (fun _ => JSValue.nonString) }
        "ping" = CStr.lit "err: non-string return value" ∧
    Worker.SendSync
        { worker_new 0 with recv_sync_handler := some (fun _ => JSValue.nonString) }
        "ping" = some "err: non-string return value" :=
  sendSync_non_string_sentinel _ (fun _ => JSValue.nonString) "ping" rfl rfl

/-- Claim C3: with no async inbound handler registered, `Send` produces a
hard error on the error channel whose text is the handler-missing message;
the only state change is the `last_exception` slot (both handler slots, the
identity, and hence the execution context binding are untouched); and the
worker remains usable: registering an async handler afterwards and sending
a message the handler accepts succeeds. -/
theorem send_no_handler_hard_error (w : Worker) (msg msg2 : String)
    (func : String → Option V8Fault)
    (h : w.recv = none) (hfunc : func msg2 = none) :
    (Worker.Send w msg).2 = Except.error "$recv not called" ∧
    (Worker.Send w msg).1 = { w with last_exception := "$recv not called" } ∧
    (Worker.Send (Recv (Worker.Send w msg).1 func) msg2).2 = Except.ok () := by
  simp [Worker.Send, worker_send, Recv, h, hfunc]

/-- Claim C3 witness: a fresh worker (no async handler), then registering a
non-faulting handler and sending again. -/
theorem send_no_handler_hard_error_witness :
    (Worker.Send (worker_new 0) "hello").2 = Except.error "$recv not called" ∧
    (Worker.Send (worker_new 0) "hello").1
      = { worker_new 0 with last_exception := "$recv not called" } ∧
    (Worker.Send (Recv (Worker.Send (worker_new 0) "hello").1 (fun _ => none))
        "again").2 = Except.ok () :=
  send_no_handler_hard_error (worker_new 0) "hello" "again" (fun _ => none) rfl rfl

/-- What the engine collaborator does with one compile-and-run request
(binding.cc lines 133-141): compilation either fails with a caught fault
(`script.IsEmpty()`), or succeeds, in which case the single `script->Run()`
either throws a fault (`result.IsEmpty()`) or completes. -/
inductive ScriptBehavior where
  | compileError (fault : V8Fault)
  | compiled (runOutcome : Option V8Fault)
  deriving DecidableEq, Repr

/-- Outcome of `worker_load`: the updated worker, the C return code, and
the number of times `script->Run()` was invoked. -/
structure LoadResult where
  worker : Worker
  code : Int
  runCount : Nat

/-- Translation of `worker_load` (binding.cc lines 111-150): on compile
failure, record the translated exception and return 1 without running; on
a run fault, record the translated exception and return 2; otherwise
return 0.  `Run` is invoked exactly once whenever compilation succeeds. -/
def worker_load (w : Worker) (script : ScriptBehavior) : LoadResult :=
  match script with
  | .compileError fault =>
    ⟨{ w with last_exception := ExceptionString fault }, 1, 0⟩
  | .compiled (some fault) =>
    ⟨{ w with last_exception := ExceptionString fault }, 2, 1⟩
  | .compiled none => ⟨w, 0, 1⟩

/-- Translation of the Go `ScriptOrigin` struct (worker.go lines 48-57). -/
structure ScriptOrigin where
  ScriptName : String
  LineOffset : Int
  ColumnOffset : Int
  IsSharedCrossOrigin : Bool
  ScriptId : Int
  IsEmbedderDebugScript : Bool
  SourceMapURL : String
  IsOpaque : Bool
  deriving DecidableEq, Repr

/-- The Go zero value of `ScriptOrigin`, produced by `new(ScriptOrigin)`
(worker.go line 157). -/
def ScriptOrigin.zeroValue : ScriptOrigin :=
  ⟨"", 0, 0, false, 0, false, "", false⟩

/-- Translation of `nextScriptName` (worker.go lines 227-233): read the
process-wide script sequence counter, increment it, and produce
`"VM" + strconv.Itoa(seq)`.  The counter is a Go `int`; its overflow is
unreachable (it advances once per load, far below the addressable-memory
bound), so it is modelled as an unbounded natural number. -/
def nextScriptName (scriptSequence : Nat) : String × Nat :=
  ("VM" ++ Nat.repr scriptSequence, scriptSequence + 1)

/-- Everything observable about one `LoadWithOptions` call: the new value
of the process script-name counter, the script name actually handed to the
engine, the worker afterwards, the Go return value, and how many times the
compiled unit ran. -/
structure LoadCall where
  scriptSequence : Nat
  scriptName : String
  worker : Worker
  result : Except String Unit
  runCount : Nat

/-- Translation of `Worker.LoadWithOptions` (worker.go lines 153-181): a
nil origin is replaced by the zero value; an empty script name is replaced
by the next synthetic name (advancing the process counter); then
`worker_load` runs, and a non-zero code is turned into an error carrying
`worker_last_exception`. -/
def Worker.LoadWithOptions (scriptSequence : Nat) (w : Worker)
    (origin : Option ScriptOrigin) (script : ScriptBehavior) : LoadCall :=
  let o := origin.getD ScriptOrigin.zeroValue
  let ns := if o.ScriptName = "" then nextScriptName scriptSequence
            else (o.ScriptName, scriptSequence)
  let r := worker_load w script
  if r.code ≠ 0 then
    ⟨ns.2, ns.1, r.worker, Except.error r.worker.last_exception, r.runCount⟩
  else
    ⟨ns.2, ns.1, r.worker, Except.ok (), r.runCount⟩

/-- Claim C2: a compile failure stores the diagnostic in the worker
last-exception slot and returns it as an error without ever running the
unit; a successful compilation runs the unit exactly once, and an uncaught
run fault stores and returns a diagnostic; otherwise the call succeeds and
the worker is unchanged.  In both failing cases the returned error carries
the diagnostic, so it is never silently swallowed. -/
theorem loadWithOptions_diagnostics (seq : Nat) (w : Worker)
    (origin : Option ScriptOrigin) (script : ScriptBehavior) :
    (∀ fault, script = ScriptBehavior.compileError fault →
      (Worker.LoadWithOptions seq w origin script).worker.last_exception
          = ExceptionString fault ∧
      (Worker.LoadWithOptions seq w origin script).result
          = Except.error (ExceptionString fault) ∧
      (Worker.LoadWithOptions seq w origin script).runCount = 0) ∧
    (∀ fault, script = ScriptBehavior.compiled (some fault) →
      (Worker.LoadWithOptions seq w origin script).worker.last_exception
          = ExceptionString fault ∧
      (Worker.LoadWithOptions seq w origin script).result
          = Except.error (ExceptionString fault) ∧
      (Worker.LoadWithOptions seq w origin script).runCount = 1) ∧
    (script = ScriptBehavior.compiled none →
      (Worker.LoadWithOptions seq w origin script).result = Except.ok () ∧
      (Worker.LoadWithOptions seq w origin script).runCount = 1 ∧
      (Worker.LoadWithOptions seq w origin script).worker = w) := by
  refine ⟨?_, ?_, ?_⟩
  · intro fault hs
    subst hs
    simp [Worker.LoadWithOptions, worker_load]
  · intro fault hs
    subst hs
    simp [Worker.LoadWithOptions, worker_load]
  · intro hs
    subst hs
    simp [Worker.LoadWithOptions, worker_load]

/-- Claim C2 witness: a compile error, a run fault, and a success, each at
concrete inputs, with the diagnostics evaluated to literal strings. -/
theorem loadWithOptions_diagnostics_witness :
    (Worker.LoadWithOptions 0 (worker_new 0) none
        (ScriptBehavior.compileError ⟨"SyntaxError: Unexpected token", none, ""⟩)).result
      = Except.error "SyntaxError: Unexpected token\n" ∧
    (Worker.LoadWithOptions 0 (worker_new 0) none
        (ScriptBehavior.compileError ⟨"SyntaxError: Unexpected token", none, ""⟩)).runCount
      = 0 ∧
    (Worker.LoadWithOptions 0 (worker_new 0) none
        (ScriptBehavior.compiled (some ⟨"Error: boom", none, ""⟩))).result
      = Except.error "Error: boom\n" ∧
    (Worker.LoadWithOptions 0 (worker_new 0) none
        (ScriptBehavior.compiled none)).result
      = Except.ok () := by
  have h1 := loadWithOptions_diagnostics 0 (worker_new 0) none
    (ScriptBehavior.compileError ⟨"SyntaxError: Unexpected token", none, ""⟩)
  have h2 := loadWithOptions_diagnostics 0 (worker_new 0) none
    (ScriptBehavior.compiled (some ⟨"Error: boom", none, ""⟩))
  have h3 := loadWithOptions_diagnostics 0 (worker_new 0) none
    (ScriptBehavior.compiled none)
  refine ⟨?_, (h1.1 _ rfl).2.2, ?_, (h3.2.2 rfl).1⟩
  · rw [(h1.1 _ rfl).2.1]; rfl
  · rw [(h2.2.1 _ rfl).2.1]; rfl

/-- The append loops of `ExceptionString` produce exactly a run of
replicated characters appended to the accumulator. -/
theorem appendLoop_eq_append_replicate (c : Char) (n : Nat) (out : String) :
    appendLoop out c n = out ++ String.mk (List.replicate n c) := by
  induction n generalizing out with
  | zero =>
    apply String.ext
    simp [appendLoop, String.data_append]
  | succ n ih =>
    rw [appendLoop, ih]
    apply String.ext
    simp [String.data_append, String.push, List.replicate_succ]

/-- Claim C6: with no position metadata the diagnostic is the bare fault
message; with metadata it is the resource name and line in the form
`name:line`, then the offending source line, then a marker line whose
markers span exactly the implicated column range (`startColumn` spaces
followed by `endColumn - startColumn` carets), then the stack trace when
one exists and otherwise the fault message. -/
theorem exceptionString_format (f : V8Fault) :
    (f.message = none → ExceptionString f = f.exceptionText ++ "\n") ∧
    (∀ m, f.message = some m →
      ExceptionString f =
        m.resourceName ++ ":" ++ toString m.lineNumber ++ "\n" ++
        m.sourceLine ++ "\n" ++
        String.mk (List.replicate m.startColumn.toNat ' ') ++
        String.mk (List.replicate (m.endColumn - m.startColumn).toNat '^') ++
        "\n" ++
        (if 0 < f.stackTrace.length then f.stackTrace ++ "\n"
         else f.exceptionText ++ "\n")) := by
  constructor
  · intro h
    simp [ExceptionString, h]
  · intro m h
    simp only [ExceptionString, h]
    rw [appendLoop_eq_append_replicate, appendLoop_eq_append_replicate]
    split <;>
      · apply String.ext
        simp [String.data_append, List.append_assoc]

/-- Claim C6 witness: a fault with no metadata, and a fault with metadata
whose rendered diagnostic (including the marker line under columns 8-9) is
evaluated to a literal. -/
theorem exceptionString_format_witness :
    ExceptionString ⟨"SyntaxError: Unexpected token", none, ""⟩
      = "SyntaxError: Unexpected token\n" ∧
    ExceptionString
        ⟨"ReferenceError: x is not defined",
         some ⟨"test.js", 3, "let y = x;", 8, 9⟩,
         "ReferenceError: x is not defined\n    at test.js:3:9"⟩
      = "test.js:3\nlet y = x;\n        ^\nReferenceError: x is not defined\n    at test.js:3:9\n" := by
  constructor
  · exact (exceptionString_format ⟨"SyntaxError: Unexpected token", none, ""⟩).1 rfl
  · have h := (exceptionString_format
      ⟨"ReferenceError: x is not defined",
       some ⟨"test.js", 3, "let y = x;", 8, 9⟩,
       "ReferenceError: x is not defined\n    at test.js:3:9"⟩).2 _ rfl
    rw [h]
    rfl

/-- Translation of `nextWorkerId` (worker.go lines 219-225): read the
process-wide worker identity counter and increment it.  The counter is a
Go `int`; its overflow is unreachable (each increment accompanies a worker
allocation, far below the addressable-memory bound), so it is modelled as
an unbounded natural number. -/
def nextWorkerId (workerIdSequence : Nat) : Nat × Nat :=
  (workerIdSequence, workerIdSequence + 1)

/-- Worker lifecycle events of one process: `New` draws a fresh identity
from `nextWorkerId` (worker.go line 98); the disposal finalizer
(worker.go lines 114-119) removes a registry entry and never touches the
identity counter. -/
inductive ProcEvent where
  | create
  | dispose (id : Nat)
  deriving DecidableEq, Repr

/-- The identities issued by the `create` events of an event sequence, in
order, with the identity counter threaded through exactly as
`nextWorkerId` does. -/
def createdIds (workerIdSequence : Nat) : List ProcEvent → List Nat
  | [] => []
  | ProcEvent.create :: es =>
    let r := nextWorkerId workerIdSequence
    r.1 :: createdIds r.2 es
  | ProcEvent.dispose _ :: es => createdIds workerIdSequence es

/-- Every identity issued from a counter state is at least that state. -/
theorem createdIds_le (es : List ProcEvent) :
    ∀ seq, ∀ x ∈ createdIds seq es, seq ≤ x := by
  induction es with
  | nil =>
    intro seq x hx
    simp [createdIds] at hx
  | cons e es ih =>
    intro seq x hx
    cases e with
    | create =>
      simp only [createdIds, nextWorkerId, List.mem_cons] at hx
      rcases hx with rfl | hx
      · exact Nat.le_refl x
      · exact Nat.le_of_succ_le (ih (seq + 1) x hx)
    | dispose id =>
      exact ih seq x (by simpa [createdIds] using hx)

/-- Claim C7: across any sequence of worker creations and disposals, the
identities issued by create are strictly increasing in order of issue
(monotonically assigned) and therefore pairwise distinct: no identity is
ever reused within the process, even after a worker is disposed. -/
theorem worker_ids_unique (seq : Nat) (es : List ProcEvent) :
    (createdIds seq es).Pairwise (· < ·) ∧ (createdIds seq es).Nodup := by
  have hp : ∀ seq, (createdIds seq es).Pairwise (· < ·) := by
    induction es with
    | nil => intro seq; simp [createdIds]
    | cons e es ih =>
      intro seq
      cases e with
      | create =>
        simp only [createdIds, nextWorkerId, List.pairwise_cons]
        exact ⟨fun x hx => Nat.lt_of_succ_le (createdIds_le es (seq + 1) x hx),
               ih (seq + 1)⟩
      | dispose id => simpa [createdIds] using ih seq
  exact ⟨hp seq, (hp seq).imp Nat.ne_of_lt⟩

/-- A handler-registration event: script code calling the reserved binding
`$recv(func)` or `$recvSync(func)`. -/
inductive RegEvent where
  | recvReg (func : String → Option V8Fault)
  | recvSyncReg (func : String → JSValue)

/-- Apply one registration to the worker: `Recv` and `RecvSync` each
overwrite their single slot. -/
def applyReg (w : Worker) : RegEvent → Worker
  | RegEvent.recvReg func => Recv w func
  | RegEvent.recvSyncReg func => RecvSync w func

/-- The async handler registered last by a sequence of events, if any. -/
def lastRecvReg (es : List RegEvent) : Option (String → Option V8Fault) :=
  es.foldl
    (fun acc e => match e with
      | RegEvent.recvReg func => some func
      | RegEvent.recvSyncReg _ => acc)
    none

/-- The sync handler registered last by a sequence of events, if any. -/
def lastRecvSyncReg (es : List RegEvent) : Option (String → JSValue) :=
  es.foldl
    (fun acc e => match e with
      | RegEvent.recvSyncReg func => some func
      | RegEvent.recvReg _ => acc)
    none

/-- The async slot after a registration sequence is the fold of the
last-wins selector over the starting slot. -/
theorem foldl_applyReg_recv (es : List RegEvent) :
    ∀ w : Worker,
      (es.foldl applyReg w).recv =
        es.foldl
          (fun acc e => match e with
            | RegEvent.recvReg func => some func
            | RegEvent.recvSyncReg _ => acc)
          w.recv := by
  induction es with
  | nil => intro w; rfl
  | cons e es ih =>
    intro w
    cases e <;> simp [List.foldl_cons, applyReg, Recv, RecvSync, ih]

/-- The sync slot after a registration sequence is the fold of the
last-wins selector over the starting slot. -/
theorem foldl_applyReg_recv_sync (es : List RegEvent) :
    ∀ w : Worker,
      (es.foldl applyReg w).recv_sync_handler =
        es.foldl
          (fun acc e => match e with
            | RegEvent.recvSyncReg func => some func
            | RegEvent.recvReg _ => acc)
          w.recv_sync_handler := by
  induction es with
  | nil => intro w; rfl
  | cons e es ih =>
    intro w
    cases e <;> simp [List.foldl_cons, applyReg, Recv, RecvSync, ih]

/-- Claim C8: a freshly created worker has no handler of either kind
registered, and after any sequence of registrations each single mutable
slot holds exactly the last-registered handler of its kind (last
registration wins); `worker_send` and `worker_send_sync` invoke precisely
what these slots hold. -/
theorem handler_slots_last_registration_wins (worker_id : Nat)
    (es : List RegEvent) :
    (worker_new worker_id).recv = none ∧
    (worker_new worker_id).recv_sync_handler = none ∧
    (es.foldl applyReg (worker_new worker_id)).recv = lastRecvReg es ∧
    (es.foldl applyReg (worker_new worker_id)).recv_sync_handler
      = lastRecvSyncReg es :=
  ⟨rfl, rfl, foldl_applyReg_recv es (worker_new worker_id),
   foldl_applyReg_recv_sync es (worker_new worker_id)⟩

/-- The host callback pair stored in the registry (worker.go lines 42-45). -/
structure Callbacks where
  cb : String → Unit
  syncCB : String → String

/-- A Go runtime panic, as distinct from any error value a dispatcher
could report. -/
inductive GoPanic where
  | nilPointerDereference
  deriving DecidableEq, Repr

/-- Translation of `recvCb` (worker.go lines 77-83): index `callbacksMap`
at the worker identity and select `.cb` through the result without
checking presence.  Indexing a Go map of pointers at an absent key yields
nil, and selecting a field through nil panics: the absent case is a crash,
not an error return. -/
def recvCb (callbacksMap : Nat → Option Callbacks) (workerId : Nat)
    (msg : String) : Except GoPanic Unit :=
  match callbacksMap workerId with
  | none => Except.error GoPanic.nilPointerDereference
  | some cbs => Except.ok (cbs.cb msg)

/-- Translation of `recvSyncCb` (worker.go lines 86-93): same unchecked
lookup, calling the sync callback and returning its string. -/
def recvSyncCb (callbacksMap : Nat → Option Callbacks) (workerId : Nat)
    (msg : String) : Except GoPanic String :=
  match callbacksMap workerId with
  | none => Except.error GoPanic.nilPointerDereference
  | some cbs => Except.ok (cbs.syncCB msg)

/-- Registry insertion performed by `New` (worker.go lines 104-106). -/
def registerWorker (m : Nat → Option Callbacks) (id : Nat)
    (cbs : Callbacks) : Nat → Option Callbacks :=
  fun k => if k = id then some cbs else m k

/-- Registry removal performed by the disposal finalizer (worker.go lines
114-119). -/
def unregisterWorker (m : Nat → Option Callbacks) (id : Nat) :
    Nat → Option Callbacks :=
  fun k => if k = id then none else m k

/-- Claim C10: the script-to-host dispatchers are total only under the
precondition that a registry entry exists for the calling identity — with
an entry present they invoke the stored callback — and a message arriving
after the entry has been removed (whatever the earlier registry contents)
finds no entry and crashes with a nil-pointer panic instead of reporting a
not-found error. -/
theorem dispatch_requires_registry_entry (m : Nat → Option Callbacks)
    (workerId : Nat) (msg : String) (cbs : Callbacks)
    (hpresent : m workerId = some cbs) :
    recvCb m workerId msg = Except.ok (cbs.cb msg) ∧
    recvSyncCb m workerId msg = Except.ok (cbs.syncCB msg) ∧
    (∀ (m2 : Nat → Option Callbacks) (id : Nat) (cbs2 : Callbacks),
      recvCb (unregisterWorker (registerWorker m2 id cbs2) id) id msg
        = Except.error GoPanic.nilPointerDereference ∧
      recvSyncCb (unregisterWorker (registerWorker m2 id cbs2) id) id msg
        = Except.error GoPanic.nilPointerDereference) := by
  refine ⟨by simp [recvCb, hpresent], by simp [recvSyncCb, hpresent], ?_⟩
  intro m2 id cbs2
  exact ⟨by simp [recvCb, unregisterWorker], by simp [recvSyncCb, unregisterWorker]⟩

/-- Claim C10 witness: a dispatch with the entry present succeeds; after
register-then-unregister at the same identity the dispatch panics. -/
theorem dispatch_requires_registry_entry_witness :
    recvSyncCb (registerWorker (fun _ => none) 0 ⟨fun _ => (), fun s => s⟩)
        0 "msg" = Except.ok "msg" ∧
    recvCb
        (unregisterWorker
          (registerWorker (fun _ => none) 1 ⟨fun _ => (), fun s => s⟩) 1)
        1 "msg" = Except.error GoPanic.nilPointerDereference := by
  have h := dispatch_requires_registry_entry
    (registerWorker (fun _ => none) 0 ⟨fun _ => (), fun s => s⟩) 0 "msg"
    ⟨fun _ => (), fun s => s⟩ rfl
  exact ⟨h.2.1, (h.2.2 (fun _ => none) 1 ⟨fun _ => (), fun s => s⟩).1⟩

/-- Decimal digit characters of a natural number, most significant first:
the list that `Nat.toDigitsCore 10` builds. -/
def digitsOf (n : Nat) : List Char :=
  if h : n / 10 = 0 then [Nat.digitChar (n % 10)]
  else digitsOf (n / 10) ++ [Nat.digitChar (n % 10)]
termination_by n
decreasing_by simp_wf; omega

/-- Unfolding of `digitsOf` below ten. -/
theorem digitsOf_small (n : Nat) (h : n / 10 = 0) :
    digitsOf n = [Nat.digitChar (n % 10)] := by
  rw [digitsOf, dif_pos h]

/-- Unfolding of `digitsOf` at ten and above. -/
theorem digitsOf_step (n : Nat) (h : ¬n / 10 = 0) :
    digitsOf n = digitsOf (n / 10) ++ [Nat.digitChar (n % 10)] := by
  rw [digitsOf, dif_neg h]

/-- With enough fuel, `Nat.toDigitsCore 10` produces the decimal digits
followed by the accumulator. -/
theorem toDigitsCore_eq_digitsOf (fuel : Nat) :
    ∀ n ds, n < fuel → Nat.toDigitsCore 10 fuel n ds = digitsOf n ++ ds := by
  induction fuel with
  | zero => intro n ds h; omega
  | succ fuel ih =>
    intro n ds h
    by_cases h10 : n / 10 = 0
    · rw [Nat.toDigitsCore]
      simp only [h10, if_true, digitsOf_small n h10, List.cons_append,
        List.nil_append]
    · rw [Nat.toDigitsCore]
      simp only [h10, if_false]
      rw [ih (n / 10) _ (by omega), digitsOf_step n h10, List.append_assoc,
        List.cons_append, List.nil_append]

/-- Numeric value of a decimal digit character. -/
def digitVal (c : Char) : Nat := c.toNat - 48

/-- Decode a decimal digit string back to the number it denotes. -/
def decodeDigits (cs : List Char) : Nat :=
  cs.foldl (fun acc c => 10 * acc + digitVal c) 0

/-- Decoding after appending one digit. -/
theorem decodeDigits_append (cs : List Char) (c : Char) :
    decodeDigits (cs ++ [c]) = 10 * decodeDigits cs + digitVal c := by
  simp [decodeDigits, List.foldl_append]

/-- The digit character of a digit decodes to itself. -/
theorem digitVal_digitChar : ∀ d, d < 10 → digitVal (Nat.digitChar d) = d := by
  decide

/-- Decoding is a left inverse of `digitsOf`. -/
theorem decodeDigits_digitsOf (n : Nat) : decodeDigits (digitsOf n) = n := by
  induction n using Nat.strong_induction_on with
  | _ n ih =>
    by_cases h : n / 10 = 0
    · rw [digitsOf_small n h]
      have hm : n % 10 = n := by omega
      simp [decodeDigits, hm, digitVal_digitChar n (by omega)]
    · rw [digitsOf_step n h, decodeDigits_append,
        ih (n / 10) (by omega),
        digitVal_digitChar (n % 10) (Nat.mod_lt n (by norm_num))]
      omega

/-- The decimal rendering `Nat.repr` (the Lean counterpart of Go
`strconv.Itoa` on non-negative values) is injective. -/
theorem repr_injective : Function.Injective Nat.repr := by
  intro a b h
  have ha : Nat.repr a = (digitsOf a).asString := by
    unfold Nat.repr Nat.toDigits
    rw [toDigitsCore_eq_digitsOf (a + 1) a [] (Nat.lt_succ_self a),
      List.append_nil]
  have hb : Nat.repr b = (digitsOf b).asString := by
    unfold Nat.repr Nat.toDigits
    rw [toDigitsCore_eq_digitsOf (b + 1) b [] (Nat.lt_succ_self b),
      List.append_nil]
  rw [ha, hb] at h
  have hd : digitsOf a = digitsOf b := congrArg String.data h
  calc a = decodeDigits (digitsOf a) := (decodeDigits_digitsOf a).symm
    _ = decodeDigits (digitsOf b) := by rw [hd]
    _ = b := decodeDigits_digitsOf b

/-- Synthetic script names are injective in the counter value. -/
theorem vm_name_injective (a b : Nat)
    (h : "VM" ++ Nat.repr a = "VM" ++ Nat.repr b) : a = b := by
  apply repr_injective
  apply String.ext
  have hdata := congrArg String.data h
  simpa [String.data_append] using hdata

/-- The synthetic names produced by `n` successive unnamed loads, with the
process script counter threaded exactly as `nextScriptName` does. -/
def scriptNamesFrom (scriptSequence : Nat) : Nat → List String
  | 0 => []
  | n + 1 =>
    let r := nextScriptName scriptSequence
    r.1 :: scriptNamesFrom r.2 n

/-- Closed form: the k-th unnamed load starting from counter state `seq`
is named with counter value `seq + k`. -/
theorem scriptNamesFrom_eq (n : Nat) :
    ∀ seq, scriptNamesFrom seq n
      = (List.range n).map (fun k => "VM" ++ Nat.repr (seq + k)) := by
  induction n with
  | zero => intro seq; rfl
  | succ n ih =>
    intro seq
    have harg : ∀ k, seq + 1 + k = seq + (k + 1) := fun k => by omega
    rw [scriptNamesFrom]
    simp only [nextScriptName]
    rw [ih (seq + 1), List.range_succ_eq_map]
    simp only [List.map_cons, List.map_map, Nat.add_zero, Function.comp_def,
      Nat.succ_eq_add_one, harg]

/-- Successive synthetic script names are pairwise distinct. -/
theorem scriptNamesFrom_nodup (seq n : Nat) : (scriptNamesFrom seq n).Nodup := by
  rw [scriptNamesFrom_eq]
  refine List.Nodup.map ?_ (List.nodup_range n)
  intro a b hab
  have := vm_name_injective (seq + a) (seq + b) hab
  omega

/-- Claim C9: a load whose origin carries an empty script name is given
the synthetic name `"VM"` followed by the current value of the sequential
process-wide counter, and the counter advances, so successive unnamed
loads receive distinct, sequentially numbered names; a non-empty supplied
name is passed through unchanged and the counter is untouched. -/
theorem load_script_name_defaulting (seq n : Nat) (w : Worker)
    (origin : ScriptOrigin) (script : ScriptBehavior)
    (hne : origin.ScriptName ≠ "") :
    ((Worker.LoadWithOptions seq w (some origin) script).scriptName
        = origin.ScriptName ∧
     (Worker.LoadWithOptions seq w (some origin) script).scriptSequence
        = seq) ∧
    (∀ o : ScriptOrigin, o.ScriptName = "" →
      (Worker.LoadWithOptions seq w (some o) script).scriptName
          = "VM" ++ Nat.repr seq ∧
      (Worker.LoadWithOptions seq w (some o) script).scriptSequence
          = seq + 1) ∧
    scriptNamesFrom seq n
      = (List.range n).map (fun k => "VM" ++ Nat.repr (seq + k)) ∧
    (scriptNamesFrom seq n).Nodup := by
  refine ⟨⟨?_, ?_⟩, ?_, scriptNamesFrom_eq n seq, scriptNamesFrom_nodup seq n⟩
  · simp only [Worker.LoadWithOptions, Option.getD_some]
    split <;> simp [hne]
  · simp only [Worker.LoadWithOptions, Option.getD_some]
    split <;> simp [hne]
  · intro o ho
    constructor
    · simp only [Worker.LoadWithOptions, Option.getD_some]
      split <;> simp [ho, nextScriptName]
    · simp only [Worker.LoadWithOptions, Option.getD_some]
      split <;> simp [ho, nextScriptName]

/-- Claim C9 witness: a named load keeps its name, an unnamed load at
counter state 0 is named `VM0`, and three successive unnamed loads from
counter state 5 yield the distinct names `VM5`, `VM6`, `VM7`. -/
theorem load_script_name_defaulting_witness :
    (Worker.LoadWithOptions 0 (worker_new 0)
        (some ⟨"main.js", 0, 0, false, 0, false, "", false⟩)
        (ScriptBehavior.compiled none)).scriptName = "main.js" ∧
    (Worker.LoadWithOptions 0 (worker_new 0)
        (some ⟨"", 0, 0, false, 0, false, "", false⟩)
        (ScriptBehavior.compiled none)).scriptName = "VM0" ∧
    scriptNamesFrom 5 3 = ["VM5", "VM6", "VM7"] ∧
    (scriptNamesFrom 5 3).Nodup := by
  have h0 := load_script_name_defaulting 0 3 (worker_new 0)
    ⟨"main.js", 0, 0, false, 0, false, "", false⟩
    (ScriptBehavior.compiled none) (by decide)
  have h5 := load_script_name_defaulting 5 3 (worker_new 0)
    ⟨"main.js", 0, 0, false, 0, false, "", false⟩
    (ScriptBehavior.compiled none) (by decide)
  refine ⟨h0.1.1, ?_, ?_, h5.2.2.2⟩
  · rw [(h0.2.1 ⟨"", 0, 0, false, 0, false, "", false⟩ rfl).1]; rfl
  · rw [h5.2.2.1]; rfl

end V8Worker
